import Mathlib

/-!
# Verification of the Identity & Access Control Engine

Shallow embedding of the auth/token/role subsystem of the node-boilertemplate
repository, together with theorems settling the frozen claims about it.

Sources embedded (file names follow the repository):
* `models/token.model.js` (mongoose Token schema; `src/unnamed/part_007`)
* `services/token.service.js` (`src/unnamed/part_011`)
* `services/auth.service.js` and `services/role.service.js` (`src/unnamed/part_010`)
* `models/postgresql/user.model.js` / `role.model.js` (Sequelize; `src/unnamed/part_006`)
* `src/models/mongodb/role.model.js`

Time is modelled as milliseconds since the epoch (`Nat`), matching
`Date.now()`.  Password hashing is modelled by plaintext equality
(`bcrypt.compare(p, hash(p)) = true`), which is the functional content of a
correct hash.  Database errors are not modelled; every embedded operation is
the happy-path semantics of the corresponding mongoose/Sequelize call.
-/

namespace NodeBoiler

/-- The `ApiError` variants used by the services
(`invalidCredentials`, `unauthorized`, `badRequest`, `notFound`,
`internalError`), each carrying its message.  `unauthorized` with the
message `"Invalid refresh token"` plays the role the spec calls
`TokenRevokedOrUnknown`. -/
inductive AuthError where
  | invalidCredentials (msg : String)
  | unauthorized (msg : String)
  | badRequest (msg : String)
  | notFound (msg : String)
  | internalError (msg : String)
deriving DecidableEq, Repr

/-- Decidable equality of service outcomes. -/
instance {e a : Type} [DecidableEq e] [DecidableEq a] :
    DecidableEq (Except e a) := fun x y =>
  match x, y with
  | .ok v, .ok w =>
    if h : v = w then isTrue (by rw [h]) else isFalse (by simp [h])
  | .ok _, .error _ => isFalse (by simp)
  | .error _, .ok _ => isFalse (by simp)
  | .error v, .error w =>
    if h : v = w then isTrue (by rw [h]) else isFalse (by simp [h])

/-- `type` enum of the Token schema: `['refresh', 'reset', 'verification']`. -/
inductive TokType where
  | refresh
  | reset
  | verification
deriving DecidableEq, Repr

/-- A persisted token document (mongoose `Token` model, part_007). -/
structure TokenRecord where
  userId : Nat
  token : String
  type : TokType
  expiresAt : Nat
  isRevoked : Bool
deriving DecidableEq, Repr

/-- `Token.findValidToken(token, type)`:
`findOne({ token, type, isRevoked: false, expiresAt: { $gt: new Date() } })`.
`findOne` returns the first matching document. -/
def findValidToken (store : List TokenRecord) (tok : String) (ty : TokType)
    (now : Nat) : Option TokenRecord :=
  store.find? fun r =>
    r.token == tok && r.type == ty && !r.isRevoked && decide (now < r.expiresAt)

/-- `tokenService.checkRefreshToken(token)`: `!!(await Token.findValidToken(token, 'refresh'))`. -/
def checkRefreshToken (store : List TokenRecord) (tok : String) (now : Nat) : Bool :=
  (findValidToken store tok .refresh now).isSome

/-- `tokenService.removeRefreshToken(token)`:
`Token.findOneAndUpdate({ token, type: 'refresh' }, { isRevoked: true }, { new: true })`.
The first document matching `token ∧ type = refresh` (revoked or not) gets
`isRevoked := true`; the updated document (or `none` when nothing matched) is
returned together with the new store.  No match is not an error. -/
def removeRefreshToken : List TokenRecord → String →
    Option TokenRecord × List TokenRecord
  | [], _ => (none, [])
  | r :: rs, tok =>
    if r.token == tok && r.type == .refresh then
      (some { r with isRevoked := true }, { r with isRevoked := true } :: rs)
    else
      let (found, rs') := removeRefreshToken rs tok
      (found, r :: rs')

/-- `Token.revokeAllForUser(userId, type)`:
`updateMany({ userId, type }, { isRevoked: true })`.
(`tokenService.removeAllRefreshTokens(userId)` calls this with `'refresh'`.) -/
def revokeAllForUser (store : List TokenRecord) (uid : Nat) (ty : TokType) :
    List TokenRecord :=
  store.map fun r =>
    if r.userId == uid && r.type == ty then { r with isRevoked := true } else r

/-- `tokenService.storeRefreshToken(userId, token)`: saves a new `Token`
document of type `refresh`; the pre-save hook fills
`expiresAt = Date.now() + 7*24*60*60*1000`. -/
def storeRefreshToken (store : List TokenRecord) (uid : Nat) (tok : String)
    (now : Nat) : List TokenRecord :=
  store ++ [{ userId := uid, token := tok, type := .refresh,
              expiresAt := now + 604800000, isRevoked := false }]

/-- A user document.  Fields follow the storage schema used by
`auth.service.js` (part_010) and the Sequelize `User` model (part_006):
credential, role reference, lockout state, soft-delete flags, and the
single-field ephemeral tokens (`passwordResetToken` / `emailVerificationToken`
live directly on the user record). -/
structure UserRec where
  id : Nat
  email : String
  password : String
  roleId : Nat
  isActive : Bool
  isDeleted : Bool
  isEmailVerified : Bool
  loginAttempts : Nat
  lockUntil : Option Nat
  lastLogin : Option Nat
  passwordResetToken : Option String
  passwordResetExpires : Option Nat
  emailVerificationToken : Option String
  emailVerificationExpires : Option Nat
deriving DecidableEq, Repr

/-- A role document (mongoose `role.model.js` / Sequelize `Role`, part_006). -/
structure Role where
  id : Nat
  name : String
  description : String
  permissions : List String
  isDefault : Bool
  isSystem : Bool
  isActive : Bool
  isDeleted : Bool
deriving DecidableEq, Repr

/-- `email.toLowerCase()`, character by character. -/
def toLowerCase (s : String) : String :=
  String.mk (s.data.map Char.toLower)

/-- `User.findByEmail(email)` (part_006):
`findOne({ email: email.toLowerCase(), isDeleted: false })`. -/
def findByEmail (users : List UserRec) (email : String) : Option UserRec :=
  users.find? fun u => u.email == toLowerCase email && !u.isDeleted

/-- `User.findById(id)` / `findByPk(id)`. -/
def findUserById (users : List UserRec) (uid : Nat) : Option UserRec :=
  users.find? fun u => u.id == uid

/-- `Role.findById(id)`. -/
def findRoleById (roles : List Role) (rid : Nat) : Option Role :=
  roles.find? fun r => r.id == rid

/-- Saving a loaded user document back: the stored record with the same id is
replaced by the updated one. -/
def saveUser (users : List UserRec) (u : UserRec) : List UserRec :=
  users.map fun v => if v.id == u.id then u else v

/-- Saving a loaded role document back. -/
def saveRoleDoc (roles : List Role) (r : Role) : List Role :=
  roles.map fun q => if q.id == r.id then r else q

/-- `user.comparePassword(password)`: `bcrypt.compare(password, this.password)`,
modelled as equality with the stored credential. -/
def comparePassword (u : UserRec) (pwd : String) : Bool :=
  pwd == u.password

/-- `user.isLocked()` (part_006): `!!(this.lockUntil && this.lockUntil > Date.now())`. -/
def isLocked (u : UserRec) (now : Nat) : Bool :=
  match u.lockUntil with
  | some l => decide (now < l)
  | none => false

/-- `user.incrementLoginAttempts()` (part_006; the mongoose service calls the
same operation as `incLoginAttempts`): set `loginAttempts := loginAttempts + 1`
and, when the new value reaches the threshold 5, set
`lockUntil := Date.now() + 2*60*60*1000`. -/
def incrementLoginAttempts (u : UserRec) (now : Nat) : UserRec :=
  if u.loginAttempts + 1 ≥ 5 then
    { u with loginAttempts := u.loginAttempts + 1, lockUntil := some (now + 7200000) }
  else
    { u with loginAttempts := u.loginAttempts + 1 }

/-- `user.resetLoginAttempts()` (part_006): `{ loginAttempts: 0, lockUntil: null }`. -/
def resetLoginAttempts (u : UserRec) : UserRec :=
  { u with loginAttempts := 0, lockUntil := none }

/-- The claims signed into an access token by `generateAccessToken`
(`{ id, email, role, permissions }`). -/
structure AccessClaims where
  userId : Nat
  email : String
  role : String
  permissions : List String
deriving DecidableEq, Repr

/-- The whole persistent state the services act on. -/
structure AuthState where
  users : List UserRec
  roles : List Role
  tokens : List TokenRecord
deriving DecidableEq, Repr

/-- Result of a successful `login` / `refreshToken` call (the parts of the
response object relevant to the claims). -/
structure SessionResult where
  accessToken : AccessClaims
  refreshTok : Option String
  role : String
  permissions : List String
deriving DecidableEq, Repr

/-- `authService.login(email, password)` (part_010).  `freshRefresh` stands for
the JWT string produced by `generateRefreshToken`; `now` is `Date.now()`.
Order of checks follows the source exactly: user lookup, `isLocked()`,
active/deleted, `comparePassword`; on credential failure
`incLoginAttempts()`; on success `resetLoginAttempts()`, `lastLogin := now`,
role lookup, token generation, `storeRefreshToken`. -/
def login (s : AuthState) (email pwd freshRefresh : String) (now : Nat) :
    Except AuthError SessionResult × AuthState :=
  match findByEmail s.users email with
  | none => (.error (.invalidCredentials "Invalid email or password"), s)
  | some user =>
    if isLocked user now then
      (.error (.unauthorized "Account is temporarily locked. Please try again later."), s)
    else if !user.isActive || user.isDeleted then
      (.error (.unauthorized "Account is deactivated or deleted"), s)
    else if !comparePassword user pwd then
      (.error (.invalidCredentials "Invalid email or password"),
       { s with users := saveUser s.users (incrementLoginAttempts user now) })
    else
      let user' := { resetLoginAttempts user with lastLogin := some now }
      match findRoleById s.roles user.roleId with
      | none =>
        -- `role.name` on a null `role` raises a TypeError, surfaced as a 500
        (.error (.internalError "TypeError"),
         { s with users := saveUser s.users user' })
      | some role =>
        (.ok { accessToken := { userId := user.id, email := user.email,
                                role := role.name, permissions := role.permissions },
               refreshTok := some freshRefresh,
               role := role.name, permissions := role.permissions },
         { s with users := saveUser s.users user',
                  tokens := storeRefreshToken s.tokens user.id freshRefresh now })

/-- Outcome of `jwt.verify` on a presented refresh token: valid signature with
decoded user id, or the library's `TokenExpiredError` / `JsonWebTokenError`. -/
inductive JwtResult where
  | ok (userId : Nat)
  | expired
  | malformed
deriving DecidableEq, Repr

/-- Signature verification, abstracted as a finite table from token strings to
their `jwt.verify` outcome; an absent string is a malformed token. -/
def verifyJWTRefreshToken (sigs : List (String × JwtResult)) (tok : String) :
    JwtResult :=
  match sigs.lookup tok with
  | some r => r
  | none => .malformed

/-- `tokenService.verifyRefreshToken(token)` (part_011): verify the JWT
signature, then `Token.findValidToken(token, 'refresh')`; a missing store
record yields `unauthorized('Invalid refresh token')`; the JWT errors map to
`unauthorized('Refresh token expired')` / `unauthorized('Invalid refresh token')`. -/
def verifyRefreshTokenSvc (sigs : List (String × JwtResult))
    (store : List TokenRecord) (tok : String) (now : Nat) :
    Except AuthError Nat :=
  match verifyJWTRefreshToken sigs tok with
  | .expired => .error (.unauthorized "Refresh token expired")
  | .malformed => .error (.unauthorized "Invalid refresh token")
  | .ok uid =>
    match findValidToken store tok .refresh now with
    | none => .error (.unauthorized "Invalid refresh token")
    | some _ => .ok uid

/-- `authService.refreshToken(refreshToken)` (part_010): verify the token
(signature + store validity), re-check the store, load the user and role, and
issue a new access token.  No write to the token store happens on any path:
the presented refresh token is not rotated and not consumed. -/
def refreshTokenSvc (sigs : List (String × JwtResult)) (s : AuthState)
    (tok : String) (now : Nat) :
    Except AuthError SessionResult × AuthState :=
  match verifyRefreshTokenSvc sigs s.tokens tok now with
  | .error e => (.error e, s)
  | .ok uid =>
    if !(checkRefreshToken s.tokens tok now) then
      (.error (.unauthorized "Invalid refresh token"), s)
    else
      match findUserById s.users uid with
      | none => (.error (.unauthorized "User not found or inactive"), s)
      | some user =>
        if !user.isActive || user.isDeleted then
          (.error (.unauthorized "User not found or inactive"), s)
        else
          match findRoleById s.roles user.roleId with
          | none => (.error (.internalError "TypeError"), s)
          | some role =>
            (.ok { accessToken := { userId := user.id, email := user.email,
                                    role := role.name,
                                    permissions := role.permissions },
                   refreshTok := none,
                   role := role.name, permissions := role.permissions }, s)

/-- `authService.logout(refreshToken)` (part_010): `removeRefreshToken`; always
succeeds. -/
def logout (s : AuthState) (tok : String) : AuthState :=
  { s with tokens := (removeRefreshToken s.tokens tok).2 }

/-- `authService.logoutAll(userId)` / `removeAllRefreshTokens(userId)`. -/
def logoutAll (s : AuthState) (uid : Nat) : AuthState :=
  { s with tokens := revokeAllForUser s.tokens uid .refresh }

/-- The find phase of `authService.resetPassword(token, newPassword)`
(part_010):
`User.findOne({ passwordResetToken: token, passwordResetExpires: { $gt: Date.now() } })`. -/
def findByResetToken (users : List UserRec) (tok : String) (now : Nat) :
    Option UserRec :=
  users.find? fun u =>
    u.passwordResetToken == some tok &&
      (match u.passwordResetExpires with
       | some e => decide (now < e)
       | none => false)

/-- The write phase of `resetPassword`: set the new password, clear the reset
fields, save, then `removeAllRefreshTokens(user._id)`. -/
def resetPasswordWrite (s : AuthState) (u : UserRec) (newPwd : String) :
    AuthState :=
  let u' : UserRec :=
    { u with password := newPwd, passwordResetToken := none,
             passwordResetExpires := none }
  { s with users := saveUser s.users u',
           tokens := revokeAllForUser s.tokens u.id .refresh }

/-- `authService.resetPassword(token, newPassword)` (part_010): a `findOne`
followed by a separate `save` — the find phase and the write phase are two
distinct store operations, composed sequentially here. -/
def resetPassword (s : AuthState) (tok newPwd : String) (now : Nat) :
    Except AuthError Unit × AuthState :=
  match findByResetToken s.users tok now with
  | none => (.error (.badRequest "Invalid or expired reset token"), s)
  | some u => (.ok (), resetPasswordWrite s u newPwd)

/-- Both calls of an interleaved schedule of two `resetPassword` calls with the
same token: call 1 runs `findOne`, then call 2 runs its `findOne` (before call
1 has saved), then both write phases run.  Returns the two outcomes and the
final state.  Nothing in the source serialises the two calls, so this schedule
is among those the store can produce. -/
def resetPasswordInterleaved (s : AuthState) (tok pwd₁ pwd₂ : String)
    (now : Nat) :
    (Except AuthError Unit × Except AuthError Unit) × AuthState :=
  match findByResetToken s.users tok now, findByResetToken s.users tok now with
  | none, none => ((.error (.badRequest "Invalid or expired reset token"),
                    .error (.badRequest "Invalid or expired reset token")), s)
  | some u, none => ((.ok (), .error (.badRequest "Invalid or expired reset token")),
                     resetPasswordWrite s u pwd₁)
  | none, some v => ((.error (.badRequest "Invalid or expired reset token"), .ok ()),
                     resetPasswordWrite s v pwd₂)
  | some u, some v => ((.ok (), .ok ()),
                       resetPasswordWrite (resetPasswordWrite s u pwd₁) v pwd₂)

/-- `authService.forgotPassword(email)` (part_010): look the user up by email;
if absent, return the uniform success message; otherwise overwrite
`passwordResetToken` with a fresh random value and set
`passwordResetExpires = Date.now() + 1h`.  `freshTok` stands for
`crypto.randomBytes(32).toString('hex')`. -/
def forgotPassword (s : AuthState) (email freshTok : String) (now : Nat) :
    AuthState :=
  match findByEmail s.users email with
  | none => s
  | some u =>
    let u' : UserRec :=
      { u with passwordResetToken := some freshTok,
               passwordResetExpires := some (now + 3600000) }
    { s with users := saveUser s.users u' }

/-- `authService.verifyEmail(token)` (part_010): find by
`emailVerificationToken` with unexpired `emailVerificationExpires`, then mark
verified and clear the fields. -/
def verifyEmail (s : AuthState) (tok : String) (now : Nat) :
    Except AuthError Unit × AuthState :=
  match s.users.find? (fun u =>
      u.emailVerificationToken == some tok &&
        (match u.emailVerificationExpires with
         | some e => decide (now < e)
         | none => false)) with
  | none => (.error (.badRequest "Invalid or expired verification token"), s)
  | some u =>
    let u' : UserRec :=
      { u with isEmailVerified := true, emailVerificationToken := none,
               emailVerificationExpires := none }
    (.ok (), { s with users := saveUser s.users u' })

/-- `authService.resendVerification(email)` (part_010): overwrite
`emailVerificationToken` with a fresh value and set a 24h expiry; errors when
the user is absent or already verified. -/
def resendVerification (s : AuthState) (email freshTok : String) (now : Nat) :
    Except AuthError Unit × AuthState :=
  match findByEmail s.users email with
  | none => (.error (.notFound "User not found"), s)
  | some u =>
    if u.isEmailVerified then
      (.error (.badRequest "Email is already verified"), s)
    else
      let u' : UserRec :=
        { u with emailVerificationToken := some freshTok,
                 emailVerificationExpires := some (now + 86400000) }
      (.ok (), { s with users := saveUser s.users u' })

/-! ## Permission resolver (role models) -/

/-- `role.hasPermission(permission)` of the mongoose `role.model.js`:
returns `false` when the role is inactive or deleted; otherwise `true` when
the wildcard `'admin:all'` is present, else membership of `permission`.
(The JS `!this.permissions` null-guard cannot fire here: the schema defaults
the field to an array.) -/
def hasPermission (r : Role) (p : String) : Bool :=
  if !r.isActive || r.isDeleted then false
  else if r.permissions.contains "admin:all" then true
  else r.permissions.contains p

/-- `role.hasAnyPermission(permissions)` of the mongoose `role.model.js`. -/
def hasAnyPermission (r : Role) (ps : List String) : Bool :=
  if !r.isActive || r.isDeleted then false
  else if r.permissions.contains "admin:all" then true
  else ps.any fun p => r.permissions.contains p

/-- `role.hasAllPermissions(permissions)` of the mongoose `role.model.js`. -/
def hasAllPermissions (r : Role) (ps : List String) : Bool :=
  if !r.isActive || r.isDeleted then false
  else if r.permissions.contains "admin:all" then true
  else ps.all fun p => r.permissions.contains p

/-- `hasPermission` of the Sequelize `Role` model (part_006):
`this.permissions.includes(permission) || this.permissions.includes('admin:all')`. -/
def hasPermissionPg (r : Role) (p : String) : Bool :=
  r.permissions.contains p || r.permissions.contains "admin:all"

/-! ## Mongoose system-role save guard (role.model.js) -/

/-- The allow-list of the system-role pre-save hook:
`['description', 'isActive', 'updatedAt']`. -/
def allowedModifications : List String := ["description", "isActive", "updatedAt"]

/-- `Object.keys(this.modifiedPaths())`: `modifiedPaths()` returns an *array*
of path names, so `Object.keys` yields its indices as strings
(`"0", "1", ...`), not the path names themselves. -/
def objectKeysOfArray (paths : List String) : List String :=
  (List.range paths.length).map (fun i => toString i)

/-- The mongoose pre-save system-role guard: for a persisted (`!isNew`) system
role with a nonempty modified-path set, error
(`'Cannot modify system role properties'`) iff some element of
`Object.keys(this.modifiedPaths())` is outside the allow-list.  Returns
`true` when the hook rejects the save. -/
def systemRoleGuardRejects (isSystem isNew : Bool) (modifiedPaths : List String) :
    Bool :=
  if isSystem && !modifiedPaths.isEmpty && !isNew then
    (objectKeysOfArray modifiedPaths).any fun f => !allowedModifications.contains f
  else
    false

/-! ## Role service (part_010) -/

/-- The update payload of `roleService.updateRole`; a `none` field is absent
from `updateData`. -/
structure RoleUpdate where
  name : Option String := none
  description : Option String := none
  permissions : Option (List String) := none
  isActive : Option Bool := none
  isDefault : Option Bool := none
deriving DecidableEq, Repr

/-- The field-assignment loop of `updateRole`:
`Object.keys(updateData).forEach(key => { if (role[key] !== undefined) role[key] = updateData[key]; })`
(every schema field of a loaded role is defined, so each present key is
assigned). -/
def applyRoleUpdate (r : Role) (upd : RoleUpdate) : Role :=
  { r with name := upd.name.getD r.name,
           description := upd.description.getD r.description,
           permissions := upd.permissions.getD r.permissions,
           isActive := upd.isActive.getD r.isActive,
           isDefault := upd.isDefault.getD r.isDefault }

/-- Name-conflict check of `updateRole`:
`Role.findOne({ name: updateData.name, isDeleted: false, _id: { $ne: roleId } })`. -/
def roleNameConflict (roles : List Role) (rid : Nat) (n : String) : Bool :=
  roles.any fun q => q.name == n && !q.isDeleted && q.id != rid

/-- `roleService.updateRole(roleId, updateData)` (part_010, mongoose path):
load the role; reject missing roles; reject **any** update of a system role
(`'Cannot update system roles'`); reject a name change that collides with an
existing role; otherwise assign every present field and save.  No step of the
save path touches `isDefault` on other roles. -/
def updateRole (roles : List Role) (rid : Nat) (upd : RoleUpdate) :
    Except AuthError Role × List Role :=
  match findRoleById roles rid with
  | none => (.error (.notFound "Role not found"), roles)
  | some role =>
    if role.isSystem then
      (.error (.badRequest "Cannot update system roles"), roles)
    else
      match upd.name with
      | some n =>
        if n != role.name && roleNameConflict roles rid n then
          (.error (.badRequest "Role with this name already exists"), roles)
        else
          let role' := applyRoleUpdate role upd
          (.ok role', saveRoleDoc roles role')
      | none =>
        let role' := applyRoleUpdate role upd
        (.ok role', saveRoleDoc roles role')

/-! ## Sequelize Role beforeSave hook (part_006) -/



/-- The Sequelize `beforeSave` hook of the PostgreSQL `Role` model: when the
saved role has `isDefault = true` and `isDefault` changed, first run
`Role.update({ isDefault: false }, { where: { id: { ≠ role.id }, isDeleted: false } })`,
then persist the role itself (replacing the stored row with the same id). -/
def pgSaveRole (roles : List Role) (r : Role) (changedDefault : Bool) :
    List Role :=
  let roles' :=
    if r.isDefault && changedDefault then
      roles.map fun q =>
        if q.id != r.id && !q.isDeleted then { q with isDefault := false } else q
    else roles
  saveRoleDoc roles' r

/-! ## Concrete fixtures used by witnesses and counterexamples -/

/-- A plain active user, role id 7, credential `"pw"`. -/
def userW : UserRec :=
  { id := 1, email := "a@x.com", password := "pw", roleId := 7,
    isActive := true, isDeleted := false, isEmailVerified := true,
    loginAttempts := 0, lockUntil := none, lastLogin := none,
    passwordResetToken := none, passwordResetExpires := none,
    emailVerificationToken := none, emailVerificationExpires := none }

/-- A plain non-system role. -/
def roleW : Role :=
  { id := 7, name := "user", description := "",
    permissions := ["auth:login"], isDefault := true,
    isSystem := false, isActive := true, isDeleted := false }

/-- A live refresh record for `userW` with value `"rt"`. -/
def recW : TokenRecord :=
  { userId := 1, token := "rt", type := .refresh, expiresAt := 5000,
    isRevoked := false }

/-- One-user, one-role, one-refresh-record state. -/
def stateW : AuthState :=
  { users := [userW], roles := [roleW], tokens := [recW] }

/-! # Theorems settling the claims -/

/-- **C8.**  Revocation of a refresh token (`logout` →
`tokenService.removeRefreshToken`) is idempotent: for every store and token
value, revoking a second time leaves the store exactly as after the first
revocation (an already-revoked record is just set revoked again), and revoking
a value that matches no stored refresh record completes with no error,
returning `null` and the unchanged store. -/
theorem removeRefreshToken_idempotent (ts : List TokenRecord) (tok : String) :
    (removeRefreshToken (removeRefreshToken ts tok).2 tok).2 =
        (removeRefreshToken ts tok).2 ∧
      ((∀ r ∈ ts, ¬(r.token = tok ∧ r.type = TokType.refresh)) →
        removeRefreshToken ts tok = (none, ts)) := by
  constructor
  · induction ts with
    | nil => simp [removeRefreshToken]
    | cons r rs ih =>
      by_cases h : (r.token == tok && r.type == TokType.refresh) = true
      · simp [removeRefreshToken, h]
      · simp [removeRefreshToken, h, ih]
  · intro h
    induction ts with
    | nil => simp [removeRefreshToken]
    | cons r rs ih =>
      have hr : ¬(r.token = tok ∧ r.type = TokType.refresh) := h r (by simp)
      have hb : ¬((r.token == tok && r.type == TokType.refresh) = true) := by
        simpa [Bool.and_eq_true] using hr
      have ih' := ih (fun x hx => h x (List.mem_cons_of_mem r hx))
      simp [removeRefreshToken, hb, ih']

/-- Witness for **C8** at a concrete store: one refresh record with value
`"t"`; double revocation of `"t"` and revocation of the unknown value `"u"`. -/
theorem removeRefreshToken_idempotent_witness :
    (removeRefreshToken (removeRefreshToken
        [{ userId := 1, token := "t", type := .refresh, expiresAt := 10,
           isRevoked := false }] "t").2 "t").2 =
      (removeRefreshToken
        [{ userId := 1, token := "t", type := .refresh, expiresAt := 10,
           isRevoked := false }] "t").2 ∧
    removeRefreshToken
        [{ userId := 1, token := "t", type := .refresh, expiresAt := 10,
           isRevoked := false }] "u" =
      (none, [{ userId := 1, token := "t", type := .refresh, expiresAt := 10,
                isRevoked := false }]) :=
  ⟨(removeRefreshToken_idempotent _ "t").1,
   (removeRefreshToken_idempotent _ "u").2 (by decide)⟩

/-- When the JWT signature verifies but the store holds no matching valid
refresh record, `refreshTokenSvc` fails with the revoked-or-unknown error. -/
theorem refreshTokenSvc_error_of_findValid_none
    (sigs : List (String × JwtResult)) (s : AuthState) (tok : String)
    (now uid : Nat) (hsig : verifyJWTRefreshToken sigs tok = .ok uid)
    (hnone : findValidToken s.tokens tok .refresh now = none) :
    (refreshTokenSvc sigs s tok now).1 =
      .error (.unauthorized "Invalid refresh token") := by
  unfold refreshTokenSvc verifyRefreshTokenSvc
  rw [hsig, hnone]

/-- **C5.**  `refreshToken`: (state) no call path writes the store — the
presented refresh token is not rotated, no new refresh record is created and
the existing records remain; (failure) when the signature verifies but the
store holds no matching non-revoked, unexpired refresh record, the call fails
with `unauthorized("Invalid refresh token")` (the TokenRevokedOrUnknown
outcome); (success) when a matching valid record, an active non-deleted user
and the role all exist, a fresh access token is issued and returned with no
accompanying refresh token. -/
theorem refreshToken_not_rotated (sigs : List (String × JwtResult))
    (s : AuthState) (tok : String) (now uid : Nat)
    (hsig : verifyJWTRefreshToken sigs tok = .ok uid) :
    (refreshTokenSvc sigs s tok now).2 = s ∧
    (findValidToken s.tokens tok .refresh now = none →
      (refreshTokenSvc sigs s tok now).1 =
        .error (.unauthorized "Invalid refresh token")) ∧
    (∀ rec u role, findValidToken s.tokens tok .refresh now = some rec →
      findUserById s.users uid = some u → u.isActive = true →
      u.isDeleted = false → findRoleById s.roles u.roleId = some role →
      (refreshTokenSvc sigs s tok now).1 =
        .ok { accessToken := { userId := u.id, email := u.email,
                               role := role.name,
                               permissions := role.permissions },
              refreshTok := none, role := role.name,
              permissions := role.permissions }) := by
  refine ⟨?_, ?_, ?_⟩
  · unfold refreshTokenSvc
    rcases h : verifyRefreshTokenSvc sigs s.tokens tok now with e | u
    · simp
    · simp only []
      by_cases hc : checkRefreshToken s.tokens tok now
      · simp only [hc]
        rcases hu : findUserById s.users u with _ | user
        · simp
        · by_cases hact : (!user.isActive || user.isDeleted) = true
          · simp [hact]
          · rcases hr : findRoleById s.roles user.roleId with _ | role
            · simp [hact, hr]
            · simp [hact, hr]
      · simp [hc]
  · intro hnone
    exact refreshTokenSvc_error_of_findValid_none sigs s tok now uid hsig hnone
  · intro rec u role hrec huser hact hdel hrole
    unfold refreshTokenSvc verifyRefreshTokenSvc
    rw [hsig, hrec]
    have hc : checkRefreshToken s.tokens tok now = true := by
      unfold checkRefreshToken
      rw [hrec]
      rfl
    simp [hc, huser, hact, hdel, hrole]

/-- Witness for **C5**: a one-user, one-role, one-record state; the failure
branch is exercised at an empty store and the success branch at the populated
one. -/
theorem refreshToken_not_rotated_witness :
    (refreshTokenSvc [("rt", .ok 1)] stateW "rt" 1000).2 = stateW ∧
    (refreshTokenSvc [("rt", .ok 1)]
        { users := [], roles := [], tokens := [] } "rt" 1000).1 =
      .error (.unauthorized "Invalid refresh token") ∧
    (refreshTokenSvc [("rt", .ok 1)] stateW "rt" 1000).1 =
      .ok { accessToken := { userId := 1, email := "a@x.com", role := "user",
                             permissions := ["auth:login"] },
            refreshTok := none, role := "user",
            permissions := ["auth:login"] } := by
  refine ⟨(refreshToken_not_rotated [("rt", .ok 1)] stateW "rt" 1000 1
      (by decide)).1, ?_, ?_⟩
  · exact (refreshToken_not_rotated [("rt", .ok 1)]
      { users := [], roles := [], tokens := [] } "rt" 1000 1
      (by decide)).2.1 (by decide)
  · exact (refreshToken_not_rotated [("rt", .ok 1)] stateW "rt" 1000 1
      (by decide)).2.2 recW userW roleW (by decide) (by decide) (by decide)
      (by decide) (by decide)

/-- After `revokeAllForUser uid refresh`, no token value that was exclusively
owned by `uid` as a refresh token is found valid any more. -/
theorem findValidToken_after_revokeAll (ts : List TokenRecord) (uid : Nat)
    (v : String) (now : Nat)
    (h : ∀ r ∈ ts, r.token = v → r.userId = uid ∧ r.type = TokType.refresh) :
    findValidToken (revokeAllForUser ts uid .refresh) v .refresh now = none := by
  unfold findValidToken revokeAllForUser
  rw [List.find?_eq_none]
  intro x hx
  rw [List.mem_map] at hx
  obtain ⟨r, hr, rfl⟩ := hx
  by_cases hv : r.token = v
  · obtain ⟨h1, h2⟩ := h r hr hv
    simp [h1, h2]
  · by_cases hc : (r.userId == uid && r.type == TokType.refresh) = true
    · simp [hc, hv]
    · simp [hc, hv]

/-- **C7.**  A successful password-reset consumption triggers
`removeAllRefreshTokens` for the affected user, so a subsequent `refreshToken`
call with any refresh token previously issued to that user fails with
`unauthorized("Invalid refresh token")` (TokenRevokedOrUnknown).  `huniq` is
the unique index on `Token.token`. -/
theorem resetPassword_invalidates_refresh (s : AuthState)
    (tok newPwd : String) (now now' uid : Nat) (u : UserRec)
    (rec : TokenRecord) (sigs : List (String × JwtResult))
    (hfind : findByResetToken s.users tok now = some u)
    (hrec : rec ∈ s.tokens) (howner : rec.userId = u.id)
    (hty : rec.type = TokType.refresh)
    (huniq : ∀ r' ∈ s.tokens, r'.token = rec.token → r' = rec)
    (hsig : verifyJWTRefreshToken sigs rec.token = .ok uid) :
    (resetPassword s tok newPwd now).1 = .ok () ∧
    (refreshTokenSvc sigs (resetPassword s tok newPwd now).2
        rec.token now').1 =
      .error (.unauthorized "Invalid refresh token") := by
  have hstate : (resetPassword s tok newPwd now) =
      (.ok (), resetPasswordWrite s u newPwd) := by
    unfold resetPassword
    rw [hfind]
  refine ⟨by rw [hstate], ?_⟩
  rw [hstate]
  have hnone : findValidToken (resetPasswordWrite s u newPwd).tokens
      rec.token .refresh now' = none := by
    show findValidToken (revokeAllForUser s.tokens u.id .refresh)
        rec.token .refresh now' = none
    apply findValidToken_after_revokeAll
    intro r' hr' hv
    have := huniq r' hr' hv
    subst this
    exact ⟨howner, hty⟩
  exact refreshTokenSvc_error_of_findValid_none sigs
      (resetPasswordWrite s u newPwd) rec.token now' uid hsig hnone

/-- `userW` with an outstanding password-reset token `"pr"` valid until 2000. -/
def userPR : UserRec :=
  { userW with passwordResetToken := some "pr",
               passwordResetExpires := some 2000 }

/-- State holding `userPR` and the live refresh record `recW`. -/
def stateR : AuthState :=
  { users := [userPR], roles := [roleW], tokens := [recW] }

/-- Witness for **C7**: consuming reset token `"pr"` at time 1000, then
refreshing with the previously issued `"rt"`. -/
theorem resetPassword_invalidates_refresh_witness :
    (resetPassword stateR "pr" "new" 1000).1 = .ok () ∧
    (refreshTokenSvc [("rt", .ok 1)]
        (resetPassword stateR "pr" "new" 1000).2 "rt" 1000).1 =
      .error (.unauthorized "Invalid refresh token") :=
  resetPassword_invalidates_refresh stateR "pr" "new" 1000 1000 1 userPR recW
    [("rt", .ok 1)] (by decide) (by decide) (by decide) (by decide)
    (by decide) (by decide)

/-- After saving a user whose reset token was cleared (or replaced), no user
matches the old reset-token value any more, provided that value was held only
by the saved user. -/
theorem findByResetToken_none_after_save (users : List UserRec)
    (u u' : UserRec) (tok : String) (now : Nat)
    (huniq : ∀ v ∈ users, v.passwordResetToken = some tok → v = u)
    (hid : u'.id = u.id) (ht : u'.passwordResetToken ≠ some tok) :
    findByResetToken (saveUser users u') tok now = none := by
  unfold findByResetToken saveUser
  rw [List.find?_eq_none]
  intro x hx
  rw [List.mem_map] at hx
  obtain ⟨v, hv, rfl⟩ := hx
  by_cases hvu : (v.id == u'.id) = true
  · simp [hvu, ht]
  · by_cases hvt : v.passwordResetToken = some tok
    · have hveq := huniq v hv hvt
      rw [hveq, hid] at hvu
      simp at hvu
    · simp [hvu, hvt]

/-- **C1 (counterexample).**  The claim says validation-and-consumption of a
password-reset token is one atomic find-and-revoke step, so two concurrent
`consume` calls with the same value resolve to exactly one success, the other
failing, with the password side effect executing exactly once.  In the code
(`resetPassword`) consumption is a `findOne` followed by a separate `save`;
under the read-read-write-write interleaving of two calls with the same token
`"pr"` both calls succeed and the password is written twice (the final
credential is the second caller\'s `"p2"`), refuting the claim. -/
theorem resetPassword_not_atomic_counterexample :
    (resetPasswordInterleaved stateR "pr" "p1" "p2" 1000).1 =
        (.ok (), .ok ()) ∧
      (resetPasswordInterleaved stateR "pr" "p1" "p2" 1000).2.users.map
          (fun u => u.password) = ["p2"] := ⟨rfl, rfl⟩

/-- **C1 (amended).**  `resetPassword` consumes via a separate read-then-write
sequence (`findOne`, then `save`): under sequential execution a successful
consumption clears the stored reset token, so a second consume of the same
value fails with `badRequest("Invalid or expired reset token")` (provided the
value was held by a single user record); but under an interleaving in which
both calls read before either writes, both consume calls succeed. -/
theorem resetPassword_read_then_write (s : AuthState) (tok p1 p2 : String)
    (now now' : Nat) (u : UserRec)
    (h1 : findByResetToken s.users tok now = some u)
    (huniq : ∀ v ∈ s.users, v.passwordResetToken = some tok → v = u) :
    (resetPassword s tok p1 now).1 = .ok () ∧
    (resetPassword (resetPassword s tok p1 now).2 tok p2 now').1 =
      .error (.badRequest "Invalid or expired reset token") ∧
    (resetPasswordInterleaved s tok p1 p2 now).1 = (.ok (), .ok ()) := by
  have hfst : resetPassword s tok p1 now =
      (.ok (), resetPasswordWrite s u p1) := by
    unfold resetPassword
    rw [h1]
  refine ⟨by rw [hfst], ?_, ?_⟩
  · rw [hfst]
    have hnone : findByResetToken (resetPasswordWrite s u p1).users
        tok now' = none := by
      show findByResetToken (saveUser s.users
          ({ u with password := p1, passwordResetToken := none,
                    passwordResetExpires := none })) tok now' = none
      exact findByResetToken_none_after_save s.users u _ tok now' huniq rfl
        (by simp)
    unfold resetPassword
    rw [hnone]
  · unfold resetPasswordInterleaved
    simp only [h1]

/-- Witness for **C1 (amended)** at the concrete state `stateR`. -/
theorem resetPassword_read_then_write_witness :
    (resetPassword stateR "pr" "p1" 1000).1 = .ok () ∧
    (resetPassword (resetPassword stateR "pr" "p1" 1000).2
        "pr" "p2" 1500).1 =
      .error (.badRequest "Invalid or expired reset token") ∧
    (resetPasswordInterleaved stateR "pr" "p1" "p2" 1000).1 =
      (.ok (), .ok ()) :=
  resetPassword_read_then_write stateR "pr" "p1" "p2" 1000 1500 userPR
    (by decide) (by decide)

/-- **C2.**  The lockout state machine through `login`:
(i) a failed credential check increments the failed-attempt counter and, when
the counter reaches 5, sets `lockUntil = now + 2h` (7 200 000 ms);
(ii) while locked (`lockUntil` in the future) a login fails with the
account-locked error even when the password is correct, leaving the state
unchanged; (iii) lock expiry is lazy: once `lockUntil ≤ now` the user is no
longer treated as locked; (iv) a successful login resets the counter to 0 and
clears the lock. -/
theorem login_lockout_machine (s : AuthState) (email pwd rt : String)
    (now : Nat) (u : UserRec)
    (hfind : findByEmail s.users email = some u)
    (ha : u.isActive = true) (hd : u.isDeleted = false) :
    (isLocked u now = false → comparePassword u pwd = false →
      (login s email pwd rt now).1 =
          .error (.invalidCredentials "Invalid email or password") ∧
        (login s email pwd rt now).2.users =
          saveUser s.users (incrementLoginAttempts u now) ∧
        (incrementLoginAttempts u now).loginAttempts = u.loginAttempts + 1 ∧
        (u.loginAttempts + 1 = 5 →
          (incrementLoginAttempts u now).lockUntil = some (now + 7200000))) ∧
    (isLocked u now = true →
      login s email pwd rt now =
        (.error (.unauthorized
            "Account is temporarily locked. Please try again later."), s)) ∧
    (∀ l, u.lockUntil = some l → l ≤ now → isLocked u now = false) ∧
    (isLocked u now = false → comparePassword u pwd = true →
      ∀ role, findRoleById s.roles u.roleId = some role →
        (∃ res, (login s email pwd rt now).1 = .ok res) ∧
        (login s email pwd rt now).2.users =
          saveUser s.users { resetLoginAttempts u with lastLogin := some now } ∧
        (resetLoginAttempts u).loginAttempts = 0 ∧
        (resetLoginAttempts u).lockUntil = none) := by
  refine ⟨?_, ?_, ?_, ?_⟩
  · intro hl hp
    unfold login
    rw [hfind]
    simp only [hl, ha, hd, hp]
    refine ⟨by simp, by simp, ?_, ?_⟩
    · unfold incrementLoginAttempts
      by_cases h5 : u.loginAttempts + 1 ≥ 5 <;> simp [h5]
    · intro h5
      unfold incrementLoginAttempts
      rw [h5]
      simp
  · intro hl
    unfold login
    rw [hfind]
    simp [hl]
  · intro l hl hle
    unfold isLocked
    rw [hl]
    simpa using hle
  · intro hl hp role hrole
    unfold login
    rw [hfind]
    simp only [hl, ha, hd, hp, hrole]
    simp [resetLoginAttempts]

/-- `userW` four failed attempts in, so the next failure locks the account. -/
def userL4 : UserRec := { userW with loginAttempts := 4 }

/-- A locked variant of `userW` (`lockUntil` = 9 000 000, in the future at time
1000). -/
def userLocked : UserRec := { userW with lockUntil := some 9000000 }

/-- Witness for **C2**: at time 1000, the 5th consecutive failure locks
`userL4` until 1000 + 2h; a locked user fails with the correct password; once
`lockUntil ≤ now` the lock no longer holds; and a correct login resets the
counter. -/
theorem login_lockout_machine_witness :
    ((login { users := [userL4], roles := [roleW], tokens := [] }
        "a@x.com" "bad" "rt" 1000).1 =
      .error (.invalidCredentials "Invalid email or password")) ∧
    ((incrementLoginAttempts userL4 1000).lockUntil = some (1000 + 7200000)) ∧
    (login { users := [userLocked], roles := [roleW], tokens := [] }
        "a@x.com" "pw" "rt" 1000 =
      (.error (.unauthorized
          "Account is temporarily locked. Please try again later."),
       { users := [userLocked], roles := [roleW], tokens := [] })) ∧
    (isLocked userLocked 9000000 = false) ∧
    ((∃ res, (login { users := [userL4], roles := [roleW], tokens := [] }
        "a@x.com" "pw" "rt" 1000).1 = .ok res) ∧
      (resetLoginAttempts userL4).loginAttempts = 0 ∧
      (resetLoginAttempts userL4).lockUntil = none) := by
  have h4 := login_lockout_machine
    { users := [userL4], roles := [roleW], tokens := [] }
    "a@x.com" "bad" "rt" 1000 userL4 (by decide) (by decide) (by decide)
  have hok := login_lockout_machine
    { users := [userL4], roles := [roleW], tokens := [] }
    "a@x.com" "pw" "rt" 1000 userL4 (by decide) (by decide) (by decide)
  have hlock := login_lockout_machine
    { users := [userLocked], roles := [roleW], tokens := [] }
    "a@x.com" "pw" "rt" 1000 userLocked (by decide) (by decide) (by decide)
  have hlazy := login_lockout_machine
    { users := [userLocked], roles := [roleW], tokens := [] }
    "a@x.com" "pw" "rt" 9000000 userLocked (by decide) (by decide) (by decide)
  refine ⟨(h4.1 (by decide) (by decide)).1,
          (h4.1 (by decide) (by decide)).2.2.2 (by decide),
          hlock.2.1 (by decide),
          hlazy.2.2.1 9000000 (by decide) (by decide),
          ?_⟩
  have := hok.2.2.2 (by decide) (by decide) roleW (by decide)
  exact ⟨this.1, this.2.2⟩

/-- **C6 (counterexample).**  The claim says that for *any* existing user,
a wrong-password login is observably identical to a login with an unknown
email.  `login` checks `isLocked()` before the password, so for the existing
(locked) user `userLocked` a wrong password yields the account-locked error
while the unknown email yields `invalidCredentials` — the two outcomes
differ, and the caller learns that the account exists. -/
theorem login_enumeration_counterexample :
    (login { users := [userLocked], roles := [roleW], tokens := [] }
        "ghost@x.com" "bad" "rt" 1000).1 =
        .error (.invalidCredentials "Invalid email or password") ∧
      (login { users := [userLocked], roles := [roleW], tokens := [] }
          "a@x.com" "bad" "rt" 1000).1 =
        .error (.unauthorized
          "Account is temporarily locked. Please try again later.") ∧
      (login { users := [userLocked], roles := [roleW], tokens := [] }
          "ghost@x.com" "bad" "rt" 1000).1 ≠
        (login { users := [userLocked], roles := [roleW], tokens := [] }
            "a@x.com" "bad" "rt" 1000).1 := by
  refine ⟨rfl, rfl, ?_⟩
  intro h
  have h1 : (Except.error
        (AuthError.invalidCredentials "Invalid email or password") :
      Except AuthError SessionResult) =
      Except.error (AuthError.unauthorized
        "Account is temporarily locked. Please try again later.") := h
  simp at h1

/-- **C6 (amended).**  For an existing user that is unlocked, active and not
deleted, a login with a wrong password returns exactly the same failure — the
same `invalidCredentials` kind and the same message
`"Invalid email or password"` — as a login with an email matching no user, so
for such accounts the caller cannot distinguish whether the account exists.
(For locked or inactive accounts the error differs, as the counterexample
shows.) -/
theorem login_enumeration_amended (s : AuthState)
    (e1 e2 p1 p2 rt1 rt2 : String) (now : Nat) (u : UserRec)
    (h1 : findByEmail s.users e1 = none)
    (h2 : findByEmail s.users e2 = some u)
    (hl : isLocked u now = false) (ha : u.isActive = true)
    (hd : u.isDeleted = false) (hp : comparePassword u p2 = false) :
    (login s e1 p1 rt1 now).1 =
        .error (.invalidCredentials "Invalid email or password") ∧
      (login s e2 p2 rt2 now).1 =
        .error (.invalidCredentials "Invalid email or password") := by
  constructor
  · unfold login
    rw [h1]
  · unfold login
    rw [h2]
    simp [hl, ha, hd, hp]

/-- Witness for **C6 (amended)**: unknown `ghost@x.com` versus wrong password
for the unlocked active `userW`. -/
theorem login_enumeration_amended_witness :
    (login { users := [userW], roles := [roleW], tokens := [] }
        "ghost@x.com" "whatever" "rt" 1000).1 =
        .error (.invalidCredentials "Invalid email or password") ∧
      (login { users := [userW], roles := [roleW], tokens := [] }
          "a@x.com" "bad" "rt" 1000).1 =
        .error (.invalidCredentials "Invalid email or password") :=
  login_enumeration_amended { users := [userW], roles := [roleW], tokens := [] }
    "ghost@x.com" "a@x.com" "whatever" "bad" "rt" "rt" 1000 userW
    (by decide) (by decide) (by decide) (by decide) (by decide) (by decide)

/-- `List.any` only depends on the predicate\'s values on the list. -/
theorem listAnyCongr {α : Type} {l : List α} {f g : α → Bool}
    (h : ∀ a ∈ l, f a = g a) : l.any f = l.any g := by
  induction l with
  | nil => rfl
  | cons x xs ih =>
    simp only [List.any_cons, h x (by simp),
      ih fun a ha => h a (List.mem_cons_of_mem x ha)]

/-- `List.all` only depends on the predicate\'s values on the list. -/
theorem listAllCongr {α : Type} {l : List α} {f g : α → Bool}
    (h : ∀ a ∈ l, f a = g a) : l.all f = l.all g := by
  induction l with
  | nil => rfl
  | cons x xs ih =>
    simp only [List.all_cons, h x (by simp),
      ih fun a ha => h a (List.mem_cons_of_mem x ha)]

/-- An inactive role that still lists `user:read`. -/
def roleInactive : Role :=
  { id := 9, name := "dormant", description := "",
    permissions := ["user:read"], isDefault := false, isSystem := false,
    isActive := false, isDeleted := false }

/-- **C9 (counterexample).**  The claim states
`hasPermission(p) = true ↔ p ∈ permissions ∨ wildcard ∈ permissions` for
*every* role.  The mongoose `hasPermission` first requires the role to be
active and not deleted: for the inactive `roleInactive`, `user:read` is in the
permission set yet `hasPermission` returns `false`, refuting the equivalence. -/
theorem hasPermission_iff_counterexample :
    "user:read" ∈ roleInactive.permissions ∧
      hasPermission roleInactive "user:read" = false := by decide

/-- **C9 (amended).**  For every *active, non-deleted* role,
`hasPermission(p)` is true iff `p` or the wildcard `admin:all` is in the
permission set; `hasAllPermissions` is the every-lifting of `hasPermission`,
and `hasAnyPermission` agrees with the some-lifting on nonempty lists (on the
empty list a wildcard role returns `true` while the lifting gives `false`).
The PostgreSQL model\'s `hasPermission` satisfies the equivalence for every
role unconditionally. -/
theorem hasPermission_amended (r : Role) (p : String) (ps : List String)
    (ha : r.isActive = true) (hd : r.isDeleted = false) :
    (hasPermission r p = true ↔
        (p ∈ r.permissions ∨ "admin:all" ∈ r.permissions)) ∧
      (ps ≠ [] → hasAnyPermission r ps =
        ps.any fun q => hasPermission r q) ∧
      (hasAllPermissions r ps = ps.all fun q => hasPermission r q) ∧
      (∀ r' : Role, ∀ q, hasPermissionPg r' q = true ↔
        (q ∈ r'.permissions ∨ "admin:all" ∈ r'.permissions)) := by
  have hguard : (!r.isActive || r.isDeleted) = false := by
    rw [ha, hd]
    rfl
  have helem : ∀ (l : List String) (a : String), l.contains a = true ↔ a ∈ l := by
    intro l a
    simp
  refine ⟨?_, ?_, ?_, ?_⟩
  · unfold hasPermission
    rw [hguard]
    by_cases hadm : r.permissions.contains "admin:all" = true
    · have hm : "admin:all" ∈ r.permissions := (helem _ _).1 hadm
      simp [hadm, hm]
    · have hm : "admin:all" ∉ r.permissions := fun hmem => hadm ((helem _ _).2 hmem)
      simp [hadm, hm]
  · intro hne
    by_cases hadm : r.permissions.contains "admin:all" = true
    · have hm : "admin:all" ∈ r.permissions := (helem _ _).1 hadm
      obtain ⟨x, xs, rfl⟩ := List.exists_cons_of_ne_nil hne
      have hx : hasPermission r x = true := by
        unfold hasPermission
        rw [hguard]
        simp [hadm, hm]
      unfold hasAnyPermission
      rw [hguard]
      simp [hadm, hm, hx]
    · have hm : "admin:all" ∉ r.permissions := fun hh => hadm ((helem _ _).2 hh)
      unfold hasAnyPermission
      rw [hguard]
      simp only [Bool.false_eq_true, if_false, hadm]
      apply listAnyCongr
      intro q _
      unfold hasPermission
      rw [hguard]
      simp [hadm, hm]
  · by_cases hadm : r.permissions.contains "admin:all" = true
    · have hm : "admin:all" ∈ r.permissions := (helem _ _).1 hadm
      have hx : ∀ q, hasPermission r q = true := by
        intro q
        unfold hasPermission
        rw [hguard]
        simp [hadm, hm]
      unfold hasAllPermissions
      rw [hguard]
      simp only [Bool.false_eq_true, if_false, hadm, if_true]
      exact (List.all_eq_true.mpr fun q _ => hx q).symm
    · have hm : "admin:all" ∉ r.permissions := fun hh => hadm ((helem _ _).2 hh)
      unfold hasAllPermissions
      rw [hguard]
      simp only [Bool.false_eq_true, if_false, hadm]
      apply listAllCongr
      intro q _
      unfold hasPermission
      rw [hguard]
      simp [hadm, hm]
  · intro r' q
    unfold hasPermissionPg
    simp

/-- Witness for **C9 (amended)** at `roleW` (permissions
`["auth:login"]`) and an admin role. -/
theorem hasPermission_amended_witness :
    (hasPermission roleW "auth:login" = true ↔
        ("auth:login" ∈ roleW.permissions ∨
          "admin:all" ∈ roleW.permissions)) ∧
      (["auth:login", "user:read"] ≠ ([] : List String) →
        hasAnyPermission roleW ["auth:login", "user:read"] =
          ["auth:login", "user:read"].any fun q => hasPermission roleW q) ∧
      (hasAllPermissions roleW ["auth:login", "user:read"] =
        ["auth:login", "user:read"].all fun q => hasPermission roleW q) ∧
      (∀ r' : Role, ∀ q, hasPermissionPg r' q = true ↔
        (q ∈ r'.permissions ∨ "admin:all" ∈ r'.permissions)) :=
  hasPermission_amended roleW "auth:login" ["auth:login", "user:read"]
    (by decide) (by decide)

/-- A system role. -/
def roleSys : Role :=
  { id := 3, name := "admin", description := "system admin",
    permissions := ["admin:all"], isDefault := false, isSystem := true,
    isActive := true, isDeleted := false }

/-- **C3.**  The claim (and the model hook\'s own allow-list comment) says a
system-role update whose field set is contained in `{description, isActive}`
— e.g. a lone `isActive` toggle — succeeds.  The code rejects it at both
layers, which this theorem evaluates: (1) `roleService.updateRole` rejects
*every* update of a system role with `badRequest("Cannot update system
roles")`, leaving the store unchanged, including the lone `isActive` toggle;
(2) the mongoose pre-save guard computes
`Object.keys(this.modifiedPaths())` — the keys of an *array*, i.e. the index
strings `"0", "1", …` — so its allow-list
`['description', 'isActive', 'updatedAt']` can never match and the hook
rejects the modified-paths set `["isActive"]` even though it is inside the
allow-list. -/
theorem systemRole_isActive_toggle_rejected :
    (updateRole [roleSys] 3 { isActive := some false }).1 =
        .error (.badRequest "Cannot update system roles") ∧
      (updateRole [roleSys] 3 { isActive := some false }).2 = [roleSys] ∧
      (updateRole [roleSys] 3 { description := some "d" }).1 =
        .error (.badRequest "Cannot update system roles") ∧
      systemRoleGuardRejects true false ["isActive"] = true ∧
      "isActive" ∈ allowedModifications := by decide

/-- Role `A`: the current default. -/
def roleA : Role :=
  { id := 1, name := "user", description := "", permissions := ["auth:login"],
    isDefault := true, isSystem := false, isActive := true, isDeleted := false }

/-- Role `B`: not yet default. -/
def roleB : Role :=
  { id := 2, name := "editor", description := "",
    permissions := ["content:read"], isDefault := false, isSystem := false,
    isActive := true, isDeleted := false }

/-- **C4 (counterexample).**  The claim says every role-mutating operation
preserves "at most one active, non-deleted role has `isDefault = true`", with
the operation setting it clearing all others.  On the MongoDB path nothing
clears the flag: `roleService.updateRole` setting `isDefault := true` on role
`B` leaves role `A`\'s flag in place, and afterwards two active non-deleted
roles have `isDefault = true`. -/
theorem defaultRole_not_exclusive_counterexample :
    (updateRole [roleA, roleB] 2 { isDefault := some true }).1 =
        .ok { roleB with isDefault := true } ∧
      ((updateRole [roleA, roleB] 2 { isDefault := some true }).2.filter
          fun q => q.isDefault && q.isActive && !q.isDeleted).length = 2 := by
  decide

/-- **C4 (amended).**  Only the Sequelize (PostgreSQL) `Role` model enforces
the invariant: its `beforeSave` hook, run when a role is saved with
`isDefault = true` after a change to that flag, clears `isDefault` on every
other non-deleted role in the same logical transition, so afterwards every
non-deleted default role is the saved one.  The MongoDB path has no such
mechanism: `roleService.updateRole` never touches any other role, so other
roles keep whatever `isDefault` value they had. -/
theorem defaultRole_exclusive_amended (roles : List Role) (r : Role)
    (hdef : r.isDefault = true) :
    (∀ q ∈ pgSaveRole roles r true, q.isDefault = true → q.isDeleted = false →
        q.id = r.id) ∧
      (∀ (roles' : List Role) (rid : Nat) (upd : RoleUpdate),
        ∀ q ∈ roles', q.id ≠ rid → q ∈ (updateRole roles' rid upd).2) := by
  constructor
  · intro q hq hqd hqdel
    unfold pgSaveRole saveRoleDoc at hq
    rw [List.mem_map] at hq
    obtain ⟨v, hv, rfl⟩ := hq
    rw [if_pos (by rw [hdef]; rfl)] at hv
    rw [List.mem_map] at hv
    obtain ⟨w, hw, rfl⟩ := hv
    by_cases h1 : (w.id != r.id && !w.isDeleted) = true
    · rw [if_pos h1] at hqd hqdel ⊢
      by_cases h2 : (({ w with isDefault := false } : Role).id == r.id) = true
      · rw [if_pos h2]
      · rw [if_neg h2] at hqd
        simp at hqd
    · rw [if_neg h1] at hqd hqdel ⊢
      by_cases h2 : (w.id == r.id) = true
      · rw [if_pos h2]
      · rw [if_neg h2] at hqd hqdel ⊢
        rw [Bool.and_eq_true, bne_iff_ne] at h1
        push_neg at h1
        by_cases h3 : w.id = r.id
        · exact h3
        · have := h1 (by simpa using h3)
          rw [hqdel] at this
          simp at this
  · intro roles' rid upd q hq hne
    rcases hf : findRoleById roles' rid with _ | role
    · simp only [updateRole, hf]
      exact hq
    · have hrid : role.id = rid := by
        have := List.find?_some hf
        simpa using this
      have hmem : q ∈ saveRoleDoc roles' (applyRoleUpdate role upd) := by
        unfold saveRoleDoc
        have himg : (if (q.id == (applyRoleUpdate role upd).id) = true
            then applyRoleUpdate role upd else q) = q := by
          rw [if_neg]
          show ¬(q.id == role.id) = true
          simp [hrid, hne]
        rw [← himg]
        exact List.mem_map_of_mem _ hq
      simp only [updateRole, hf]
      by_cases hsys : role.isSystem = true
      · rw [if_pos hsys]
        exact hq
      · rw [if_neg hsys]
        cases hn : upd.name with
        | none =>
          simp only [hn]
          exact hmem
        | some n =>
          simp only [hn]
          by_cases hc : (n != role.name && roleNameConflict roles' rid n) = true
          · rw [if_pos hc]
            exact hq
          · rw [if_neg hc]
            exact hmem

/-- Witness for **C4 (amended)**: saving `roleB` with `isDefault := true`
through the Sequelize hook clears `roleA`, and the MongoDB `updateRole`
leaves untouched roles in place. -/
theorem defaultRole_exclusive_amended_witness :
    (∀ q ∈ pgSaveRole [roleA, roleB] { roleB with isDefault := true } true,
        q.isDefault = true → q.isDeleted = false →
        q.id = ({ roleB with isDefault := true } : Role).id) ∧
      (∀ (roles' : List Role) (rid : Nat) (upd : RoleUpdate),
        ∀ q ∈ roles', q.id ≠ rid → q ∈ (updateRole roles' rid upd).2) :=
  defaultRole_exclusive_amended [roleA, roleB]
    { roleB with isDefault := true } (by decide)

/-- Analogue of `findByResetToken_none_after_save` for the
email-verification field. -/
theorem findVerifyToken_none_after_save (users : List UserRec)
    (u u' : UserRec) (tok : String) (now : Nat)
    (huniq : ∀ v ∈ users, v.emailVerificationToken = some tok → v = u)
    (hid : u'.id = u.id) (ht : u'.emailVerificationToken ≠ some tok) :
    (saveUser users u').find? (fun v =>
        v.emailVerificationToken == some tok &&
          (match v.emailVerificationExpires with
           | some e => decide (now < e)
           | none => false)) = none := by
  unfold saveUser
  rw [List.find?_eq_none]
  intro x hx
  rw [List.mem_map] at hx
  obtain ⟨v, hv, rfl⟩ := hx
  by_cases hvu : (v.id == u'.id) = true
  · simp [hvu, ht]
  · by_cases hvt : v.emailVerificationToken = some tok
    · have hveq := huniq v hv hvt
      rw [hveq, hid] at hvu
      simp at hvu
    · simp [hvu, hvt]

/-- **C10.**  Ephemeral tokens are single fields on the user record, so each
user has at most one consumable token of each kind: after `forgotPassword`
overwrites `passwordResetToken` with a fresh value, the previously issued
reset token no longer consumes (`resetPassword` fails with
`badRequest("Invalid or expired reset token")`); and after
`resendVerification` overwrites `emailVerificationToken`, the previously
issued verification token no longer consumes (`verifyEmail` fails with
`badRequest("Invalid or expired verification token")`).  The uniqueness
hypotheses say the old value was held by no other user record. -/
theorem ephemeral_token_overwritten (s : AuthState)
    (email oldR newR oldV newV : String) (now : Nat) (u : UserRec)
    (hfind : findByEmail s.users email = some u) :
    (u.passwordResetToken = some oldR → newR ≠ oldR →
      (∀ v ∈ s.users, v.passwordResetToken = some oldR → v = u) →
      ∀ p now', (resetPassword (forgotPassword s email newR now)
          oldR p now').1 =
        .error (.badRequest "Invalid or expired reset token")) ∧
    (u.isEmailVerified = false → u.emailVerificationToken = some oldV →
      newV ≠ oldV →
      (∀ v ∈ s.users, v.emailVerificationToken = some oldV → v = u) →
      ∀ now', (verifyEmail (resendVerification s email newV now).2
          oldV now').1 =
        .error (.badRequest "Invalid or expired verification token")) := by
  constructor
  · intro _ hne huniq p now'
    have hstate : forgotPassword s email newR now =
        { s with users := saveUser s.users { u with passwordResetToken := some newR, passwordResetExpires := some (now + 3600000) } } := by
      unfold forgotPassword
      rw [hfind]
    rw [hstate]
    have hnone : findByResetToken (saveUser s.users { u with passwordResetToken := some newR, passwordResetExpires := some (now + 3600000) }) oldR now' = none :=
      findByResetToken_none_after_save s.users u _ oldR now' huniq rfl
        (by simp [hne])
    unfold resetPassword
    rw [hnone]
  · intro hver _ hne huniq now'
    have hstate : (resendVerification s email newV now).2 =
        { s with users := saveUser s.users { u with emailVerificationToken := some newV, emailVerificationExpires := some (now + 86400000) } } := by
      simp only [resendVerification, hfind]
      rw [if_neg (by simp [hver])]
    rw [hstate]
    have hnone := findVerifyToken_none_after_save s.users u
      ({ u with emailVerificationToken := some newV,
                emailVerificationExpires := some (now + 86400000) })
      oldV now' huniq rfl (by simp [hne])
    unfold verifyEmail
    rw [hnone]

/-- A user with an outstanding reset token `"pr"` and verification token
`"vt"`, email not yet verified. -/
def userEph : UserRec :=
  { userW with isEmailVerified := false,
               passwordResetToken := some "pr",
               passwordResetExpires := some 2000,
               emailVerificationToken := some "vt",
               emailVerificationExpires := some 5000 }

/-- State holding `userEph`. -/
def stateEph : AuthState :=
  { users := [userEph], roles := [roleW], tokens := [] }

/-- Witness for **C10**: overwriting `"pr"` with `"pr2"` and `"vt"` with
`"vt2"` makes the old values fail to consume. -/
theorem ephemeral_token_overwritten_witness :
    (resetPassword (forgotPassword stateEph "a@x.com" "pr2" 1000)
        "pr" "np" 1200).1 =
      .error (.badRequest "Invalid or expired reset token") ∧
    (verifyEmail (resendVerification stateEph "a@x.com" "vt2" 1000).2
        "vt" 1200).1 =
      .error (.badRequest "Invalid or expired verification token") := by
  have h := ephemeral_token_overwritten stateEph "a@x.com" "pr" "pr2" "vt"
    "vt2" 1000 userEph (by decide)
  exact ⟨h.1 (by decide) (by decide) (by decide) "np" 1200,
         h.2 (by decide) (by decide) (by decide) (by decide) 1200⟩

end NodeBoiler
